import Mathlib

/-!
# Verification of the sorcery conversation-history compaction engine

Shallow embedding of the history-compaction core of the `sorcery` repository:

* `src/sorcery/history.py` — `StorySummary.summarize` (the recursive compactor)
  and `StorySummary.summarize_all` (full collapse through the model);
* `src/sorcery/llm.py` — `Model.simple_send_with_retries` (retry policy),
  `StoryTeller.send_message` (retry loop with context-window short-circuit),
  and `StoryTeller.summarize_worker` / `StoryTeller.summarize_end`
  (background-compaction coordination).

Python messages (`dict(role=..., content=...)`) become the `Msg` structure.
Token counting (`litellm`) and the completion client are external
dependencies; they are passed in as explicit function arguments.  All uses of
`Model.token_count` relevant to these functions are on single-message lists
(per-message sizing in `tokenize`, and the one-element summary list at
`history.py:80`), so the counter is modelled as a per-message function
`tc : Msg → Nat` summed over lists.  Sleeping delays are represented in units
of 0.125 s (the starting delay), so `retry_delay = 0.125` becomes `1` and the
60 s ceiling `RETRY_TIMEOUT` becomes `480`.  Unbounded Python `while` loops
are embedded with an explicit fuel argument (`none` = the loop is still
running after `fuel` iterations).
-/

/-- A chat message `dict(role=..., content=...)` (a Turn of the spec). -/
structure Msg where
  role : String
  content : String
deriving DecidableEq

/-- Sum of per-message token counts: `total = sum(tokens for tokens, _ in sized)`
with `sized = self.tokenize(messages)` (history.py:27-28, 11-21). -/
def tokCount (tc : Msg → Nat) (messages : List Msg) : Nat :=
  (messages.map tc).sum

/-- The fixed summarization instruction sent as the system message of every
`summarize_all` request: `prompts.summarize` (src/sorcery/prompts.py:1-22),
transcribed verbatim (ASCII apostrophes written with the \x27 escape). -/
def prompts_summarize : String :=
  "*Briefly* summarize this partial sequence of scenes in a text adventure RPG game that involves a narrator\x27s description of events, followed by user/player response to choices. Include less detail about older scenes and more detail about the most recent scenes. Also start a new paragraph in the summary for every scene.\n" ++
  "\n" ++
  "For example, if given the scene:\n" ++
  "-------------------\n" ++
  "# Narrator\n" ++
  "You make your way through the lively marketplace toward a colorful fruit stand. The scent of ripe apples, plump berries, and fragrant citrus fills the air, enticing your senses. The vendor, a jovial man with a bushy mustache, greets you with a broad smile. “Ahoy there! Care for some of Eldergrove’s finest? Freshly harvested this morning!” He gestures proudly to the display before him, where baskets overflowing with vibrant produce glisten in the sunlight. Bright red apples, deep blue berries, and sunny oranges all tempt you with their freshness. Feeling a twinge of hunger, you consider your options. Despite your lack of gold, you recall tales of trade where goods can be exchanged for other goods or services. Perhaps this man would be open to an offer beyond coins. “Would you like to try something, young adventurer?” he asks, noticing your keen interest. You feel the warmth of the sun on your skin and look over the tempting fruits, pondering what you might say:\n" ++
  "1. Inquire about the prices of the fruits first, hoping there may be something affordable that you can buy with gold you don’t have.\n" ++
  "2. Ask the vendor if he has any need for assistance, offering to help in exchange for a piece of fruit.\n" ++
  "3. Politely decline purchasing any fruit, preferring to simply enjoy the sights and sounds of the market for now.\n" ++
  "\n" ++
  "# Player\n" ++
  "Player action: Inquire about the fruits\n" ++
  "-------------------\n" ++
  "\n" ++
  "Then the summary should be like:\n" ++
  "The adventurer moves through the market to a fruit stand, tempted by its aroma. He is greeted by a jovial vendor with a bushy mustache. The player is low on gold so asks about the prices hoping for something affordable.\n" ++
  "\n" ++
  "Reminder:\n" ++
  "This is only part of a longer sequence of scenes so *DO NOT* conclude the summary with language like \"Finally, ...\". Because the story continues after the summary.\n" ++
  "The summary *MUST* include the relevant character names, places, actions, all info pertinent to the player, and key developments in the plot. Keep necessary details (descriptions e.g. the vendor has a bushy mustache) and facts while eliminating the literary fluff. This way reconstruction will be consistent if past events needs to be recalled in later scenes. The summary should aim to leave zero ambiguity in all plot points.\n" ++
  "At the end of each scene do not summarize the options given to the player, only the action the player chooses.\n"

/-- One iteration of the rendering loop of `StorySummary.summarize_all`
(history.py:90-100): skip roles other than USER/ASSISTANT, prepend the
speaker header, append the message content, and pad a final newline. -/
def renderStep (content : String) (m : Msg) : String :=
  let role := m.role.toUpper
  if role ≠ "USER" ∧ role ≠ "ASSISTANT" then content
  else
    let content1 := content ++ (if role = "USER" then "# Player\n" else "# Narrator\n") ++ m.content
    if content1.endsWith "\n" then content1 else content1 ++ "\n"

/-- The rendered transcript built by `StorySummary.summarize_all`
(history.py:89-100). -/
def renderAll (messages : List Msg) : String :=
  messages.foldl renderStep ""

/-- `StorySummary.summarize_all` (history.py:88-114).  The call
`self.model.simple_send_with_retries(summarize_messages)` is abstracted as
`oracle`: `some s` models the wrapper returning the summary text `s`, while
`none` models it returning `None` or raising (both of which reach the final
`raise ValueError(...)` — the spec's `CompactionExhausted`). -/
def summarize_all (oracle : List Msg → Option String) (messages : List Msg) :
    Except String (List Msg) :=
  match oracle [Msg.mk "system" prompts_summarize, Msg.mk "user" (renderAll messages)] with
  | some summary => Except.ok [Msg.mk "user" summary]
  | none => Except.error "summarizer unexpectedly failed for all models"

/-- `min_split = 4` (history.py:32). -/
def min_split : Nat := 4

/-- The backward scan of `StorySummary.summarize` (history.py:36-47) counted
from the end: how many trailing messages are accepted into the tail.  The
Python loop walks `i` from `len-1` down, accumulating `tail_tokens` while
`tail_tokens + tokens < half_max_tokens` and setting `split_index = i`; the
accepted messages are exactly a suffix, so `split_index = len - accepted`.
The argument list is the reversed per-message token list. -/
def countAccepted (half : Nat) (tailT : Nat) : List Nat → Nat
  | [] => 0
  | t :: rest => if tailT + t < half then countAccepted half (tailT + t) rest + 1 else 0

/-- The boundary-alignment `while` loop of `StorySummary.summarize`
(history.py:50-51): `while messages[split_index - 1]["role"] != "user" and
split_index > 1: split_index -= 1`.  At `s ≤ 1` the conjunct `split_index > 1`
is false and the loop exits with `s` unchanged. -/
def alignSplit (messages : List Msg) : Nat → Nat
  | 0 => 0
  | 1 => 1
  | s + 2 =>
    if (messages.getD (s + 1) (Msg.mk "" "")).role ≠ "user" then alignSplit messages (s + 1)
    else s + 2

/-- Configuration of a `StorySummary` instance: the per-message token counter,
`self.max_tokens` (the compaction threshold, default 1024), the model's
`info.get("max_input_tokens")` (`none`/`some 0` are Python-falsy), and the
completion oracle standing for `simple_send_with_retries`. -/
structure SummCfg where
  tc : Msg → Nat
  maxTokens : Nat
  modelMaxInput : Option Nat
  oracle : List Msg → Option String

/-- The head-capping limit of `StorySummary.summarize` (history.py:63-64):
`(self.model.info.get("max_input_tokens") or 4096) - 512`, as an integer (the
Python subtraction can go negative). -/
def effectiveLimit (cfg : SummCfg) : Int :=
  (((match cfg.modelMaxInput with
      | none => 4096
      | some v => if v = 0 then 4096 else v) : Nat) : Int) - 512

/-- The split index computed by `StorySummary.summarize` (history.py:36-51):
the backward token scan followed by the boundary-alignment walk. -/
def splitIndexOf (cfg : SummCfg) (messages : List Msg) : Nat :=
  alignSplit messages
    (messages.length - countAccepted (cfg.maxTokens / 2) 0 (messages.map cfg.tc).reverse)

/-- The head-capping loop of `StorySummary.summarize` (history.py:66-74):
accumulate `total += tokens` over the sized head in order and stop (dropping
the remainder) as soon as `total > limit`. -/
def keepScan (limit : Int) (total : Int) : List (Nat × Msg) → List Msg
  | [] => []
  | (t, m) :: rest =>
    if total + (t : Int) > limit then []
    else m :: keepScan limit (total + (t : Int)) rest

/-- `StorySummary.summarize` (history.py:23-86) with an explicit fuel that
bounds the number of (recursive) calls; `none` means the fuel ran out before
the recursion terminated.  An `Except.error` result models the propagated
`ValueError` of a failed `summarize_all` sub-call. -/
def summarizeF (cfg : SummCfg) : Nat → List Msg → Nat → Option (Except String (List Msg))
  | 0, _, _ => none
  | fuel + 1, messages, depth =>
    if tokCount cfg.tc messages ≤ cfg.maxTokens ∧ depth = 0 then some (Except.ok messages)
    else if messages.length ≤ min_split ∨ depth > 3 then
      some (summarize_all cfg.oracle messages)
    else if splitIndexOf cfg messages ≤ min_split then
      some (summarize_all cfg.oracle messages)
    else
      match summarize_all cfg.oracle
          (keepScan (effectiveLimit cfg) 0
            ((messages.map (fun m => (cfg.tc m, m))).take (splitIndexOf cfg messages))) with
      | Except.error e => some (Except.error e)
      | Except.ok summary =>
        if tokCount cfg.tc summary + tokCount cfg.tc (messages.drop (splitIndexOf cfg messages))
            < cfg.maxTokens then
          some (Except.ok (summary ++ messages.drop (splitIndexOf cfg messages)))
        else
          summarizeF cfg fuel (summary ++ messages.drop (splitIndexOf cfg messages)) (depth + 1)

/-- `RETRY_TIMEOUT = 60` seconds (llm.py:16) in units of 0.125 s. -/
def retryTimeout : Nat := 480

/-- Modelled from the spec: the outcome of one completion attempt inside
`Model.simple_send_with_retries` (llm.py:244-270).  The error classifier
(`LiteLLMExceptions` in `sorcery/exceptions.py`) is not under `src/`; per the
spec, a classified error carries a retryable flag.  `ok` is a response with a
usable `choices[0].message.content`; `badResponse` is a falsy response or one
without choices; `attrError` is the `except AttributeError` path. -/
inductive SimpleOutcome where
  | ok (content : String)
  | badResponse
  | classified (retryable : Bool)
  | attrError
deriving DecidableEq

/-- The `while True` loop of `Model.simple_send_with_retries` (llm.py:244-270).
`call n` is the outcome of the `n`-th completion attempt; `delay` is
`retry_delay` in 0.125 s units (initially `1`).  The returned pair is the
Python return value together with the number of attempts made; `none` means
the loop was still running after `fuel` iterations.  Note the faithful
translation of the success path: after `res = response.choices[0].message.content`
the body ends with no `return`, so the loop iterates again. -/
def simpleSendLoop (call : Nat → SimpleOutcome) : Nat → Nat → Nat → Option (Option String × Nat)
  | 0, _, _ => none
  | fuel + 1, attempt, delay =>
    match call attempt with
    | SimpleOutcome.ok _ => simpleSendLoop call fuel (attempt + 1) delay
    | SimpleOutcome.badResponse => some (none, attempt + 1)
    | SimpleOutcome.attrError => some (none, attempt + 1)
    | SimpleOutcome.classified retryable =>
      if retryable then
        if 2 * delay > retryTimeout then some (none, attempt + 1)
        else simpleSendLoop call fuel (attempt + 1) (2 * delay)
      else some (none, attempt + 1)

/-- Modelled from the spec: the outcome of one completion attempt inside
`StoryTeller.send_message` (llm.py:375-412).  A classified error carries a
name (distinguishing `"ContextWindowExceededError"`) and a retryable flag, as
the spec describes for the missing `sorcery/exceptions.py`; `generic` is the
bare `except Exception` path. -/
inductive AttemptOutcome where
  | ok (content : String)
  | badResponse
  | classified (name : String) (retryable : Bool)
  | generic
deriving DecidableEq

/-- The value `StoryTeller.send_message` produces from its retry loop:
returned text, an explicit `return ""`, or falling off the `while` loop after
a `break` (Python implicitly returns `None`). -/
inductive SendRes where
  | text (s : String)
  | emptyStr
  | pyNone
deriving DecidableEq

/-- The `while True` retry loop of `StoryTeller.send_message` (llm.py:375-412),
with attempt and backoff-sleep counters.  Both `break` statements (the
`ContextWindowExceededError` short-circuit and the not-retryable/exhausted
case) leave the loop with no statement after it, so the function returns
Python `None` (`SendRes.pyNone`) on both paths. -/
def sendMessageLoop (call : Nat → AttemptOutcome) :
    Nat → Nat → Nat → Nat → Option (SendRes × Nat × Nat)
  | 0, _, _, _ => none
  | fuel + 1, attempt, delay, sleeps =>
    match call attempt with
    | AttemptOutcome.ok s => some (SendRes.text s, attempt + 1, sleeps)
    | AttemptOutcome.badResponse => some (SendRes.emptyStr, attempt + 1, sleeps)
    | AttemptOutcome.generic => some (SendRes.emptyStr, attempt + 1, sleeps)
    | AttemptOutcome.classified name retryable =>
      if name = "ContextWindowExceededError" then some (SendRes.pyNone, attempt + 1, sleeps)
      else if retryable then
        if 2 * delay > retryTimeout then some (SendRes.pyNone, attempt + 1, sleeps)
        else sendMessageLoop call fuel (attempt + 1) (2 * delay) (sleeps + 1)
      else some (SendRes.pyNone, attempt + 1, sleeps)

/-- A call that always fails with a context-window-exceeded classification. -/
def cweCall : Nat → AttemptOutcome :=
  fun _ => AttemptOutcome.classified "ContextWindowExceededError" false

/-- A call that always fails with a retryable classified error. -/
def alwaysRetryCall : Nat → AttemptOutcome :=
  fun _ => AttemptOutcome.classified "RateLimitError" true

/-- The `StoryTeller` attributes involved in background compaction
(llm.py:276-335).  `thread` is `summarizer_thread is not None`;
`summarizing_messages`/`summarized_done_messages` are `none` when holding
Python `None` / when the attribute has never been assigned, respectively
(`__init__` assigns neither). -/
structure TellerState where
  done_messages : List Msg
  thread : Bool
  summarizing_messages : Option (List Msg)
  summarized_done_messages : Option (List Msg)
deriving DecidableEq

/-- `StoryTeller.summarize_worker` (llm.py:315-321): snapshot `done_messages`,
run the summarizer on the snapshot; on success store the result, on
`ValueError` only display the error (so `summarized_done_messages` keeps
whatever value it had before the job). -/
def summarize_worker (summarizeFn : List Msg → Except String (List Msg))
    (st : TellerState) : TellerState :=
  match summarizeFn st.done_messages with
  | Except.ok r =>
    { st with summarizing_messages := some st.done_messages,
              summarized_done_messages := some r }
  | Except.error _ =>
    { st with summarizing_messages := some st.done_messages }

/-- `StoryTeller.summarize_end` (llm.py:323-335): no-op when no job is in
flight; otherwise clear the in-flight marker, and if the snapshot equals the
current `done_messages`, adopt `summarized_done_messages` as the new
`done_messages` (reading that attribute raises `AttributeError` when it was
never assigned); finally reset `summarizing_messages = None` and
`summarized_done_messages = []`. -/
def summarize_end (st : TellerState) : Except String TellerState :=
  if st.thread = false then Except.ok st
  else if st.summarizing_messages = some st.done_messages then
    match st.summarized_done_messages with
    | none => Except.error "AttributeError"
    | some r =>
      Except.ok { done_messages := r, thread := false,
                  summarizing_messages := none, summarized_done_messages := some [] }
  else
    Except.ok { st with thread := false,
                        summarizing_messages := none, summarized_done_messages := some [] }

/-- Concrete configuration for witnesses: every message counts 100 tokens,
threshold 400, model input ceiling 4096, oracle always answers "S". -/
def cfgW : SummCfg :=
  { tc := fun _ => 100, maxTokens := 400, modelMaxInput := some 4096,
    oracle := fun _ => some "S" }

/-- Concrete eight-message history for witnesses, alternating user/assistant
starting with the player, so index 6 has role `user`. -/
def msgsW : List Msg :=
  [Msg.mk "user" "a0", Msg.mk "assistant" "a1", Msg.mk "user" "a2", Msg.mk "assistant" "a3",
   Msg.mk "user" "a4", Msg.mk "assistant" "a5", Msg.mk "user" "a6", Msg.mk "assistant" "a7"]

theorem tokCount_append (tc : Msg → Nat) (a b : List Msg) :
    tokCount tc (a ++ b) = tokCount tc a + tokCount tc b := by
  simp [tokCount]

theorem summarize_all_length (oracle : List Msg → Option String) (messages r : List Msg)
    (h : summarize_all oracle messages = Except.ok r) : r.length = 1 := by
  unfold summarize_all at h
  cases ho : oracle [Msg.mk "system" prompts_summarize, Msg.mk "user" (renderAll messages)] with
  | some s =>
    simp only [ho] at h
    obtain rfl := Except.ok.inj h
    rfl
  | none =>
    simp only [ho] at h
    exact Except.noConfusion h

/-- C1: refuted (code bug).  The claim says that when the completion client
returns a usable response on some attempt, `Model.simple_send_with_retries`
terminates and returns that response's text.  In the code (llm.py:244-270)
the success path assigns `res = response.choices[0].message.content` and then
reaches the end of the `while True` body with no `return`, so the wrapper
re-sends the request forever: with a call that succeeds on every attempt, the
loop never returns, for any number of iterations. -/
theorem c1_success_never_returns (fuel : Nat) :
    simpleSendLoop (fun _ => SimpleOutcome.ok "The story continues.") fuel 0 1 = none := by
  have key : ∀ f a, simpleSendLoop (fun _ => SimpleOutcome.ok "The story continues.") f a 1 = none := by
    intro f
    induction f with
    | zero => intro a; rfl
    | succ n ih =>
      intro a
      rw [simpleSendLoop]
      exact ih (a + 1)
  exact key fuel 0

/-- C9: idempotence of the no-op fast path.  For any token counter, oracle
and input whose total token count is within the threshold,
`StorySummary.summarize(messages, 0)` returns the input sequence unchanged
(history.py:27-30); since the result is fixed for every oracle, no
summarization request can influence it. -/
theorem c9_noop_identity (cfg : SummCfg) (messages : List Msg) (fuel : Nat)
    (hsmall : tokCount cfg.tc messages ≤ cfg.maxTokens) (hfuel : 0 < fuel) :
    summarizeF cfg fuel messages 0 = some (Except.ok messages) := by
  obtain ⟨n, rfl⟩ : ∃ n, fuel = n + 1 := ⟨fuel - 1, by omega⟩
  rw [summarizeF]
  simp [hsmall]

/-- Witness for C9 at a concrete under-budget input. -/
theorem c9_noop_identity_witness :
    tokCount cfgW.tc [Msg.mk "user" "a0"] ≤ cfgW.maxTokens ∧ 0 < 1 ∧
      summarizeF cfgW 1 [Msg.mk "user" "a0"] 0 = some (Except.ok [Msg.mk "user" "a0"]) :=
  ⟨by decide, by decide, c9_noop_identity cfgW [Msg.mk "user" "a0"] 1 (by decide) (by decide)⟩

/-- C2: refuted (code bug).  The claim (and spec §4.2) says that when the
background compaction job fails, resolution leaves `done_messages` exactly as
it was.  In the code, `summarize_worker` (llm.py:315-321) swallows the
`ValueError` without marking the failure, leaving `summarized_done_messages`
at its stale value — `[]` after any earlier resolved job (llm.py:335) — and
`summarize_end` (llm.py:330-332) then adopts that stale value because the
snapshot still equals `done_messages`.  Evaluated here: a two-message history
whose compaction job fails is replaced by the empty list, wiping the story
history.  (On the first-ever failed job the attribute was never assigned and
the same line raises `AttributeError` instead.) -/
theorem c2_failed_job_wipes_history :
    summarize_end
        (summarize_worker (fun _ => Except.error "summarizer unexpectedly failed for all models")
          (TellerState.mk [Msg.mk "user" "a0", Msg.mk "assistant" "a1"] true none (some [])))
      = Except.ok (TellerState.mk [] false none (some [])) := by
  rfl

/-- C3: resolution of a successful compaction job (llm.py:315-335).  After
`summarize_worker` runs a job whose summarizer call succeeds on the snapshot
`D` with result `R`, and `done_messages` has meanwhile become `D ++ A`:
if nothing was appended (`A = []`), `summarize_end` replaces `done_messages`
with the job result `R`; if something was appended (`A ≠ []`), the job result
is discarded and `done_messages` stays `D ++ A`.  In both cases the in-flight
marker (`summarizer_thread`, and `summarizing_messages`) is cleared. -/
theorem c3_staleness_discard (summarizeFn : List Msg → Except String (List Msg))
    (D A R : List Msg) (sm sd : Option (List Msg)) (hok : summarizeFn D = Except.ok R) :
    (A = [] →
      summarize_end
          { summarize_worker summarizeFn (TellerState.mk D true sm sd) with
            done_messages := D ++ A }
        = Except.ok (TellerState.mk R false none (some []))) ∧
    (A ≠ [] →
      summarize_end
          { summarize_worker summarizeFn (TellerState.mk D true sm sd) with
            done_messages := D ++ A }
        = Except.ok (TellerState.mk (D ++ A) false none (some []))) := by
  have hw : summarize_worker summarizeFn (TellerState.mk D true sm sd)
      = TellerState.mk D true (some D) (some R) := by
    simp [summarize_worker, hok]
  rw [hw]
  constructor
  · rintro rfl
    simp [summarize_end]
  · intro hA
    have hne : ¬ (D = D ++ A) := by
      intro hc
      apply hA
      have hlen := congrArg List.length hc
      simp at hlen
      exact hlen
    simp [summarize_end, hne]

/-- Witness for C3 at concrete inputs, taking the append branch. -/
theorem c3_staleness_discard_witness :
    summarize_end
        { summarize_worker (fun _ => Except.ok [Msg.mk "user" "S"])
            (TellerState.mk [Msg.mk "user" "a0"] true none (some [])) with
          done_messages := [Msg.mk "user" "a0"] ++ [Msg.mk "assistant" "a1"] }
      = Except.ok
          (TellerState.mk ([Msg.mk "user" "a0"] ++ [Msg.mk "assistant" "a1"]) false none
            (some [])) :=
  (c3_staleness_discard (fun _ => Except.ok [Msg.mk "user" "S"])
    [Msg.mk "user" "a0"] [Msg.mk "assistant" "a1"] [Msg.mk "user" "S"] none (some [])
    rfl).2 (by decide)

/-- C4: termination of the compactor within `maxDepth + 1` recursive calls
(history.py:23-86).  One unit of fuel is one call of `summarize`; any call
with more than `4 - depth` units of fuel completes, because every recursion
raises `depth` by one and a call at `depth > 3` (or with at most `min_split`
messages) collapses without recursing.  At the top level (`depth = 0`) fuel
`5` — the initial call plus `maxDepth + 1 = 4` recursive calls — always
suffices, for every token counter, threshold and oracle. -/
theorem c4_depth_bounded_termination (cfg : SummCfg) :
    ∀ (fuel : Nat) (messages : List Msg) (depth : Nat), 4 - depth < fuel →
      (summarizeF cfg fuel messages depth).isSome = true := by
  intro fuel
  induction fuel with
  | zero => intro messages depth h; omega
  | succ n ih =>
    intro messages depth h
    rw [summarizeF]
    by_cases h1 : tokCount cfg.tc messages ≤ cfg.maxTokens ∧ depth = 0
    · rw [if_pos h1]; rfl
    rw [if_neg h1]
    by_cases h2 : messages.length ≤ min_split ∨ depth > 3
    · rw [if_pos h2]; rfl
    rw [if_neg h2]
    by_cases h3 : splitIndexOf cfg messages ≤ min_split
    · rw [if_pos h3]; rfl
    rw [if_neg h3]
    have hd3 : depth ≤ 3 := by
      rcases not_or.mp h2 with ⟨-, hgt⟩
      omega
    cases hko : summarize_all cfg.oracle
        (keepScan (effectiveLimit cfg) 0
          ((messages.map (fun m => (cfg.tc m, m))).take (splitIndexOf cfg messages))) with
    | error e => simp only [hko]; rfl
    | ok summary =>
      simp only [hko]
      by_cases h5 : tokCount cfg.tc summary
          + tokCount cfg.tc (messages.drop (splitIndexOf cfg messages)) < cfg.maxTokens
      · rw [if_pos h5]; rfl
      · rw [if_neg h5]
        exact ih (summary ++ messages.drop (splitIndexOf cfg messages)) (depth + 1) (by omega)

/-- Witness for C4: fuel `5` completes at depth `0` on a concrete history. -/
theorem c4_depth_bounded_termination_witness :
    4 - 0 < 5 ∧ (summarizeF cfgW 5 msgsW 0).isSome = true :=
  ⟨by decide, c4_depth_bounded_termination cfgW 5 msgsW 0 (by decide)⟩

/-- C5: size convergence of the compactor (history.py:29-34, 79-86).  Every
sequence `r` that `StorySummary.summarize` actually returns (a terminating,
non-raising run, at any depth) either has total token count within the
threshold or is a single fully-collapsed summary turn: the under-budget
fast path returns an under-budget input, the collapse paths return the
one-element `summarize_all` result, and the split path returns
`summary + tail` only under `summary_tokens + tail_tokens < max_tokens`. -/
theorem c5_size_convergence (cfg : SummCfg) :
    ∀ (fuel : Nat) (messages : List Msg) (depth : Nat) (r : List Msg),
      summarizeF cfg fuel messages depth = some (Except.ok r) →
      tokCount cfg.tc r ≤ cfg.maxTokens ∨ r.length = 1 := by
  intro fuel
  induction fuel with
  | zero =>
    intro messages depth r h
    exact Option.noConfusion h
  | succ n ih =>
    intro messages depth r h
    rw [summarizeF] at h
    by_cases h1 : tokCount cfg.tc messages ≤ cfg.maxTokens ∧ depth = 0
    · rw [if_pos h1] at h
      obtain rfl : messages = r := Except.ok.inj (Option.some.inj h)
      exact Or.inl h1.1
    rw [if_neg h1] at h
    by_cases h2 : messages.length ≤ min_split ∨ depth > 3
    · rw [if_pos h2] at h
      exact Or.inr (summarize_all_length cfg.oracle messages r (Option.some.inj h))
    rw [if_neg h2] at h
    by_cases h3 : splitIndexOf cfg messages ≤ min_split
    · rw [if_pos h3] at h
      exact Or.inr (summarize_all_length cfg.oracle messages r (Option.some.inj h))
    rw [if_neg h3] at h
    cases hko : summarize_all cfg.oracle
        (keepScan (effectiveLimit cfg) 0
          ((messages.map (fun m => (cfg.tc m, m))).take (splitIndexOf cfg messages))) with
    | error e =>
      simp only [hko] at h
      exact Except.noConfusion (Option.some.inj h)
    | ok summary =>
      simp only [hko] at h
      by_cases h5 : tokCount cfg.tc summary
          + tokCount cfg.tc (messages.drop (splitIndexOf cfg messages)) < cfg.maxTokens
      · rw [if_pos h5] at h
        obtain rfl : summary ++ messages.drop (splitIndexOf cfg messages) = r :=
          Except.ok.inj (Option.some.inj h)
        left
        rw [tokCount_append]
        omega
      · rw [if_neg h5] at h
        exact ih (summary ++ messages.drop (splitIndexOf cfg messages)) (depth + 1) r h

/-- Witness for C5 on a concrete over-budget history resolved by the split
path: the result is the summary turn plus the verbatim tail. -/
theorem c5_size_convergence_witness :
    summarizeF cfgW 5 msgsW 0
        = some (Except.ok [Msg.mk "user" "S", Msg.mk "assistant" "a7"]) ∧
      (tokCount cfgW.tc [Msg.mk "user" "S", Msg.mk "assistant" "a7"] ≤ cfgW.maxTokens ∨
        ([Msg.mk "user" "S", Msg.mk "assistant" "a7"] : List Msg).length = 1) :=
  ⟨by rfl, c5_size_convergence cfgW 5 msgsW 0 [Msg.mk "user" "S", Msg.mk "assistant" "a7"]
    (by rfl)⟩

/-- The boundary-alignment walk only stops above index 1 at a position whose
preceding message has role `user` (history.py:50-51). -/
theorem alignSplit_stops_at_user (messages : List Msg) :
    ∀ s : Nat, 1 < alignSplit messages s →
      (messages.getD (alignSplit messages s - 1) (Msg.mk "" "")).role = "user" := by
  intro s
  induction s using Nat.strong_induction_on with
  | _ s ih =>
    match s with
    | 0 => intro h; exact absurd h (by simp [alignSplit])
    | 1 => intro h; exact absurd h (by simp [alignSplit])
    | s + 2 =>
      intro h
      rw [alignSplit] at h ⊢
      by_cases hrole : (messages.getD (s + 1) (Msg.mk "" "")).role ≠ "user"
      · rw [if_pos hrole] at h ⊢
        exact ih (s + 1) (by omega) h
      · rw [if_neg hrole] at h ⊢
        simpa using not_not.mp hrole

/-- C7: boundary alignment.  Whenever `StorySummary.summarize` performs a
non-collapsed split (which requires the computed split index to exceed
`min_split`, history.py:53-57), the input turn immediately preceding the kept
tail `messages[split_index:]` — the last turn of the summarized head — has
role `user`, so the head never ends mid-exchange. -/
theorem c7_boundary_alignment (cfg : SummCfg) (messages : List Msg)
    (h : min_split < splitIndexOf cfg messages) :
    (messages.getD (splitIndexOf cfg messages - 1) (Msg.mk "" "")).role = "user" := by
  unfold splitIndexOf at h ⊢
  apply alignSplit_stops_at_user
  have hms : min_split = 4 := rfl
  omega

/-- Witness for C7: on the concrete history the split index is 7 and message
6 is the player's turn. -/
theorem c7_boundary_alignment_witness :
    min_split < splitIndexOf cfgW msgsW ∧
      (msgsW.getD (splitIndexOf cfgW msgsW - 1) (Msg.mk "" "")).role = "user" :=
  ⟨by decide, c7_boundary_alignment cfgW msgsW (by decide)⟩

/-- C10: the compactor does not disturb its input.  The embedding of
`StorySummary.summarize` is a pure function — the Python code only builds new
lists (`tokenize`, slices, `keep`, `summary + tail`) and new dicts, never
writing into the caller's list or its dicts — and on the split return path
the kept tail is the verbatim suffix `messages[split_index:]` of the input, in
original order, appended unchanged after the summary turn
(history.py:57, 79-83).  The hypotheses are exactly the four branch
conditions that select the direct split return. -/
theorem c10_split_keeps_tail_verbatim (cfg : SummCfg) (messages : List Msg)
    (depth fuel : Nat) (summary : List Msg)
    (h1 : ¬ (tokCount cfg.tc messages ≤ cfg.maxTokens ∧ depth = 0))
    (h2 : ¬ (messages.length ≤ min_split ∨ depth > 3))
    (h3 : ¬ (splitIndexOf cfg messages ≤ min_split))
    (h4 : summarize_all cfg.oracle
        (keepScan (effectiveLimit cfg) 0
          ((messages.map (fun m => (cfg.tc m, m))).take (splitIndexOf cfg messages)))
      = Except.ok summary)
    (h5 : tokCount cfg.tc summary + tokCount cfg.tc (messages.drop (splitIndexOf cfg messages))
      < cfg.maxTokens) :
    summarizeF cfg (fuel + 1) messages depth
      = some (Except.ok (summary ++ messages.drop (splitIndexOf cfg messages))) := by
  rw [summarizeF, if_neg h1, if_neg h2, if_neg h3]
  simp only [h4]
  rw [if_pos h5]

/-- Witness for C10 on the concrete history: the split index is 7 and the
last turn of the input reappears verbatim after the summary. -/
theorem c10_split_keeps_tail_verbatim_witness :
    summarizeF cfgW (0 + 1) msgsW 0
      = some (Except.ok ([Msg.mk "user" "S"] ++ msgsW.drop (splitIndexOf cfgW msgsW))) :=
  c10_split_keeps_tail_verbatim cfgW msgsW 0 0 [Msg.mk "user" "S"]
    (by decide) (by decide) (by decide) (by rfl) (by decide)

/-- Auxiliary for C6: against a call that fails with a retryable classified
error on every attempt, the `simple_send_with_retries` loop returns `None`
after `m` attempts, where `m` is bounded by any `k + 1` such that `k`
doublings push the delay past the 60 s ceiling. -/
theorem simpleSendLoop_constFail (call : Nat → SimpleOutcome)
    (hcall : ∀ n, call n = SimpleOutcome.classified true) :
    ∀ (n a d : Nat), retryTimeout < 2 ^ (n + 1) * d →
      ∃ m, simpleSendLoop call (n + 1) a d = some (none, m) ∧
        ∀ k, retryTimeout < 2 ^ (k + 1) * d → m ≤ a + k + 1 := by
  intro n
  induction n with
  | zero =>
    intro a d hd
    rw [simpleSendLoop]
    simp only [hcall a, if_pos rfl]
    have h2d : 2 * d > retryTimeout := by
      have : 2 ^ (0 + 1) * d = 2 * d := by ring
      omega
    rw [if_pos h2d]
    exact ⟨a + 1, rfl, fun k _ => by omega⟩
  | succ n ih =>
    intro a d hd
    rw [simpleSendLoop]
    simp only [hcall a, if_pos rfl]
    by_cases hc : 2 * d > retryTimeout
    · rw [if_pos hc]
      exact ⟨a + 1, rfl, fun k _ => by omega⟩
    · rw [if_neg hc]
      have hd2 : retryTimeout < 2 ^ (n + 1) * (2 * d) := by
        have : 2 ^ (n + 1 + 1) * d = 2 ^ (n + 1) * (2 * d) := by ring
        omega
      obtain ⟨m, hm, hk⟩ := ih (a + 1) (2 * d) hd2
      refine ⟨m, hm, ?_⟩
      intro k h480
      cases k with
      | zero =>
        exfalso
        have : 2 ^ (0 + 1) * d = 2 * d := by ring
        omega
      | succ j =>
        have hj : retryTimeout < 2 ^ (j + 1) * (2 * d) := by
          have : 2 ^ (j + 1 + 1) * d = 2 ^ (j + 1) * (2 * d) := by ring
          omega
        have := hk j hj
        omega

/-- C6: retry bound of `Model.simple_send_with_retries` (llm.py:242-270).
Against a call that fails with a retryable classified error on every attempt,
any run of the loop long enough to finish (at least 9 iterations of fuel,
starting from `retry_delay = 0.125 s`) returns the failure result `None`
after at most `ceil(log2(60 / 0.125)) + 1 = 10` attempts.  (The code in fact
gives up after exactly 9 attempts: the ninth failure doubles the delay to
64 s > 60 s.) -/
theorem c6_retry_bound (call : Nat → SimpleOutcome)
    (hcall : ∀ n, call n = SimpleOutcome.classified true)
    (fuel : Nat) (hfuel : 9 ≤ fuel) :
    ∃ m, simpleSendLoop call fuel 0 1 = some (none, m) ∧ m ≤ 10 := by
  obtain ⟨n, rfl⟩ : ∃ n, fuel = n + 1 := ⟨fuel - 1, by omega⟩
  have hpow : retryTimeout < 2 ^ (n + 1) * 1 := by
    have h9 : (2 : Nat) ^ 9 ≤ 2 ^ (n + 1) := Nat.pow_le_pow_right (by omega) (by omega)
    have : (2 : Nat) ^ 9 = 512 := by norm_num
    have hrt : retryTimeout = 480 := rfl
    simp only [mul_one]
    omega
  obtain ⟨m, hm, hk⟩ := simpleSendLoop_constFail call hcall n 0 1 hpow
  refine ⟨m, hm, ?_⟩
  have h8 : retryTimeout < 2 ^ (8 + 1) * 1 := by norm_num [retryTimeout]
  have := hk 8 h8
  omega

/-- Witness for C6 with a concrete always-retryable-failure call. -/
theorem c6_retry_bound_witness :
    ∃ m, simpleSendLoop (fun _ => SimpleOutcome.classified true) 9 0 1 = some (none, m) ∧
      m ≤ 10 :=
  c6_retry_bound (fun _ => SimpleOutcome.classified true) (fun _ => rfl) 9 (by decide)

/-- C8 counterexample: the claim says the context-window-exceeded outcome is
surfaced to the caller distinctly from the exhausted-retries outcome.  It is
not: in `StoryTeller.send_message` (llm.py:385-396) both the
`ContextWindowExceededError` short-circuit and the exhausted-retries case
`break` out of the loop with nothing after it (the `exhausted` flag set at
llm.py:386 is never read), so both runs return Python `None`.  Concretely, a
call that always fails with a context-window error and a call that always
fails with a retryable rate-limit error yield the identical surfaced value. -/
theorem c8_indistinct_surfacing :
    (sendMessageLoop cweCall 20 0 1 0).map Prod.fst = some SendRes.pyNone ∧
      (sendMessageLoop alwaysRetryCall 20 0 1 0).map Prod.fst = some SendRes.pyNone := by
  constructor
  · rfl
  · rfl

/-- C8 amended: if the first completion attempt fails with a classified
`"ContextWindowExceededError"` (whatever its retryable flag), the retry loop
of `StoryTeller.send_message` returns after that single attempt with no
backoff sleep — but it surfaces the outcome as the same implicit `None` the
exhausted-retries path produces, not distinctly. -/
theorem c8_cwe_single_attempt (call : Nat → AttemptOutcome) (r : Bool) (fuel : Nat)
    (h : call 0 = AttemptOutcome.classified "ContextWindowExceededError" r) :
    sendMessageLoop call (fuel + 1) 0 1 0 = some (SendRes.pyNone, 1, 0) := by
  rw [sendMessageLoop]
  simp [h]

/-- Witness for the amended C8 at the concrete always-context-window call. -/
theorem c8_cwe_single_attempt_witness :
    sendMessageLoop cweCall (19 + 1) 0 1 0 = some (SendRes.pyNone, 1, 0) :=
  c8_cwe_single_attempt cweCall false 19 rfl
